import Mathlib

/-!
Shallow embedding of the task-dispatch orchestrator's core modules
(src/core/error_recovery.py, src/core/exceptions.py, src/core/mq.py,
src/core/coordinator.py, src/core/worker.py, src/core/policy.py,
src/core/error_rate_limiter.py, src/agents/browser_agent/main.py),
with theorems settling the frozen claims about them.

Conventions of the embedding:
* Python floats are modelled as rationals (ℚ); wall-clock times are ℚ
  parameters passed explicitly where the source calls time.time().
* Python dictionaries with string keys are association lists
  (List (String × PyVal)); dict.get is an assoc lookup.
* A fallible backend call (Redis, sqlite, Playwright) is modelled by an
  explicit outcome parameter enumerating the exception classes the
  source distinguishes in its except-clauses; a function that catches
  every exception is total over that outcome type.
* Timing/latency bookkeeping fields (processing_time_ms and friends)
  and log statements are elided: they are wall-clock observability
  data, not part of any claim.
-/

/-- Minimal model of the Python values that flow through task
specifications and result dictionaries: None, booleans, numbers
(ints and floats collapsed to ℚ), and strings. -/
inductive PyVal where
  | vNone : PyVal
  | vBool : Bool → PyVal
  | vNum : ℚ → PyVal
  | vStr : String → PyVal
deriving DecidableEq, Repr

/-- Association-list lookup modelling Python dict indexing / dict.get
(returns the first binding for the key, none when absent). -/
def pyGet (d : List (String × PyVal)) (k : String) : Option PyVal :=
  match d with
  | [] => none
  | (k', v) :: rest => if k' = k then some v else pyGet rest k

/-- Python truthiness for the values of PyVal (bool(x)). -/
def PyVal.truthy : PyVal → Bool
  | .vNone => false
  | .vBool b => b
  | .vNum q => q ≠ 0
  | .vStr s => s ≠ ""

/-- Crude rendering of a PyVal for interpolation into f-strings, where
only the shape of the message matters to the claims. -/
def PyVal.render : PyVal → String
  | .vNone => "None"
  | .vBool b => if b then "True" else "False"
  | .vNum q => toString q
  | .vStr s => s

/-! ## src/core/exceptions.py and src/core/error_recovery.py: the error
taxonomy as seen by ExponentialBackoffStrategy.should_retry.

The repository defines ValidationError and ConfigurationError twice:
once in src/core/exceptions.py (the base taxonomy) and again, as
distinct classes, in src/core/error_recovery.py. should_retry's
isinstance check names the error_recovery-local classes only. The
constructors below keep the two families apart. -/

/-- Exception classes relevant to should_retry, one constructor per
distinguishable class. exc… constructors are the classes from
src/core/exceptions.py, rec… are the duplicates defined locally in
src/core/error_recovery.py; connectionErr and timeoutErr are the
Python builtins; genericErr is any other (non-AgenticError)
exception. -/
inductive PyError where
  | excValidation : PyError
  | excConfiguration : PyError
  | recValidation : PyError
  | recConfiguration : PyError
  | databaseErr : PyError
  | redisErr : PyError
  | apiErr : PyError
  | fileIoErr : PyError
  | agenticBase : PyError
  | connectionErr : PyError
  | timeoutErr : PyError
  | genericErr : PyError
deriving DecidableEq, Repr

/-- isinstance(error, AgenticError): every class in the taxonomy of
src/core/exceptions.py derives from AgenticError, as do the two
duplicates defined in src/core/error_recovery.py. -/
def PyError.isAgentic : PyError → Bool
  | .excValidation | .excConfiguration | .recValidation | .recConfiguration
  | .databaseErr | .redisErr | .apiErr | .fileIoErr | .agenticBase => true
  | .connectionErr | .timeoutErr | .genericErr => false

/-- isinstance(error, (ValidationError, ConfigurationError)) as written
in src/core/error_recovery.py line 121: the names resolve to the
classes defined in that same file, not to the identically named
classes of src/core/exceptions.py. -/
def PyError.isRecPermanent : PyError → Bool
  | .recValidation | .recConfiguration => true
  | _ => false

/-- isinstance(error, transient_errors) for the tuple (DatabaseError,
RedisError, APIError, FileIOError, ConnectionError, TimeoutError). -/
def PyError.isTransient : PyError → Bool
  | .databaseErr | .redisErr | .apiErr | .fileIoErr
  | .connectionErr | .timeoutErr => true
  | _ => false

/-- ExponentialBackoffStrategy.should_retry (src/core/error_recovery.py
lines 107-135). The attempt number is accepted but, as in the source,
never read. -/
def should_retry (error : PyError) (_attempt : Nat) : Bool :=
  if error.isAgentic then
    if error.isRecPermanent then false else true
  else
    error.isTransient

/-- ExponentialBackoffStrategy.get_delay (src/core/error_recovery.py
lines 137-154). rand models the value of random.random(), which lies
in [0, 1). The exponent attempt - 1 is ℕ-subtraction, matching the
source for every attempt ≥ 1 (callers pass attempt ≥ 1). -/
def get_delay (base_delay max_delay multiplier : ℚ) (jitter : Bool)
    (attempt : Nat) (rand : ℚ) : ℚ :=
  let delay := min (base_delay * multiplier ^ (attempt - 1)) max_delay
  if jitter then delay * (1/2 + rand * (1/2)) else delay

/-! ## src/core/error_recovery.py: CircuitBreaker. -/

/-- Circuit breaker state strings (src/core/error_recovery.py line
182). -/
inductive CBState where
  | CLOSED : CBState
  | OPEN : CBState
  | HALF_OPEN : CBState
deriving DecidableEq, Repr

/-- Mutable fields of a CircuitBreaker (src/core/error_recovery.py
lines 160-183). last_failure_time is None until the first failure. -/
structure CircuitBreaker where
  failure_threshold : Nat
  recovery_timeout : ℚ
  failure_count : Nat
  last_failure_time : Option ℚ
  state : CBState
deriving DecidableEq, Repr

/-- CircuitBreaker.__init__ with the given threshold and timeout. -/
def CircuitBreaker.mk0 (threshold : Nat) (timeout : ℚ) : CircuitBreaker :=
  ⟨threshold, timeout, 0, none, .CLOSED⟩

/-- Outcome of invoking the wrapped function: it returns normally,
raises the configured expected_exception, or raises some other
exception. -/
inductive FuncOutcome where
  | success : FuncOutcome
  | expectedExn : FuncOutcome
  | otherExn : FuncOutcome
deriving DecidableEq, Repr

/-- Result of CircuitBreaker.call: rejected means CircuitBreakerError
was raised without invoking the wrapped function; ok means the wrapped
function was invoked and its result returned; raised means the wrapped
function was invoked and its expected exception re-raised; otherRaised
means an unexpected exception propagated uncaught. -/
inductive CallResult where
  | rejected : CallResult
  | ok : CallResult
  | raised : CallResult
  | otherRaised : CallResult
deriving DecidableEq, Repr

/-- First phase of CircuitBreaker.call (src/core/error_recovery.py
lines 200-205): when the state is OPEN, either move to HALF_OPEN (if a
last failure time is recorded, is truthy, and recovery_timeout has
elapsed) or reject the call; none means the call is rejected with
CircuitBreakerError. Python's truthiness test on last_failure_time
makes a recorded time of exactly 0.0 behave like None. -/
def CircuitBreaker.openCheck (cb : CircuitBreaker) (now : ℚ) :
    Option CircuitBreaker :=
  if cb.state = .OPEN then
    match cb.last_failure_time with
    | some t =>
        if t ≠ 0 ∧ now - t ≥ cb.recovery_timeout then
          some { cb with state := .HALF_OPEN }
        else none
    | none => none
  else some cb

/-- CircuitBreaker.call (src/core/error_recovery.py lines 185-225),
with the wrapped function's behaviour supplied as a FuncOutcome and
time.time() as now. Returns the call result together with the updated
breaker. -/
def CircuitBreaker.call (cb : CircuitBreaker) (now : ℚ)
    (f : FuncOutcome) : CallResult × CircuitBreaker :=
  match cb.openCheck now with
  | none => (.rejected, cb)
  | some cb1 =>
    match f with
    | .success =>
        let cb2 := if cb1.state = .HALF_OPEN then
          { cb1 with state := .CLOSED } else cb1
        (.ok, { cb2 with failure_count := 0 })
    | .expectedExn =>
        let fc := cb1.failure_count + 1
        let cb2 :=
          { cb1 with failure_count := fc, last_failure_time := some now }
        let cb3 := if fc ≥ cb1.failure_threshold ∨ cb1.state = .HALF_OPEN
          then { cb2 with state := .OPEN } else cb2
        (.raised, cb3)
    | .otherExn => (.otherRaised, cb1)

/-! ## Claims C1, C5, C6 (error recovery toolkit). -/

/-- C1: with failure_threshold = 2, two consecutive calls whose wrapped
function raises the expected exception drive the breaker CLOSED → OPEN;
a call while OPEN before recovery_timeout has elapsed since the last
failure is rejected with CircuitBreakerError without invoking the
wrapped function (result .rejected, state unchanged, whatever the
wrapped function would have done); and a call after recovery_timeout
whose wrapped function succeeds passes through HALF_OPEN (the openCheck
phase) and ends CLOSED with failure_count 0. -/
theorem C1_circuit_breaker (rt t1 t2 t3 t4 : ℚ) (f : FuncOutcome)
    (hlft : t2 ≠ 0)
    (hbefore : t3 - t2 < rt)
    (hafter : t4 - t2 ≥ rt) :
    CircuitBreaker.call (CircuitBreaker.mk0 2 rt) t1 .expectedExn =
      (.raised, ⟨2, rt, 1, some t1, .CLOSED⟩) ∧
    CircuitBreaker.call ⟨2, rt, 1, some t1, .CLOSED⟩ t2 .expectedExn =
      (.raised, ⟨2, rt, 2, some t2, .OPEN⟩) ∧
    CircuitBreaker.call ⟨2, rt, 2, some t2, .OPEN⟩ t3 f =
      (.rejected, ⟨2, rt, 2, some t2, .OPEN⟩) ∧
    CircuitBreaker.openCheck ⟨2, rt, 2, some t2, .OPEN⟩ t4 =
      some ⟨2, rt, 2, some t2, .HALF_OPEN⟩ ∧
    CircuitBreaker.call ⟨2, rt, 2, some t2, .OPEN⟩ t4 .success =
      (.ok, ⟨2, rt, 0, some t2, .CLOSED⟩) := by
  have h3 : ¬ rt ≤ t3 - t2 := not_le.mpr hbefore
  have h4 : rt ≤ t4 - t2 := hafter
  refine ⟨?_, ?_, ?_, ?_, ?_⟩ <;>
    simp [CircuitBreaker.call, CircuitBreaker.openCheck,
          CircuitBreaker.mk0, h3, h4, hlft]

/-- C1 witness: the scenario of C1_circuit_breaker at concrete times
(recovery_timeout 10, failures at times 1 and 2, rejected probe at
time 5, successful probe at time 20). -/
theorem C1_circuit_breaker_witness :
    CircuitBreaker.call (CircuitBreaker.mk0 2 10) 1 .expectedExn =
      (.raised, ⟨2, 10, 1, some 1, .CLOSED⟩) ∧
    CircuitBreaker.call ⟨2, 10, 1, some 1, .CLOSED⟩ 2 .expectedExn =
      (.raised, ⟨2, 10, 2, some 2, .OPEN⟩) ∧
    CircuitBreaker.call ⟨2, 10, 2, some 2, .OPEN⟩ 5 .expectedExn =
      (.rejected, ⟨2, 10, 2, some 2, .OPEN⟩) ∧
    CircuitBreaker.openCheck ⟨2, 10, 2, some 2, .OPEN⟩ 20 =
      some ⟨2, 10, 2, some 2, .HALF_OPEN⟩ ∧
    CircuitBreaker.call ⟨2, 10, 2, some 2, .OPEN⟩ 20 .success =
      (.ok, ⟨2, 10, 0, some 2, .CLOSED⟩) :=
  C1_circuit_breaker 10 1 2 5 20 .expectedExn (by norm_num)
    (by norm_num) (by norm_num)

/-- C5 counterexample: the claim says should_retry returns False for a
ValidationError, citing the ValidationError of src/core/exceptions.py;
on that class should_retry returns True (the isinstance check in
should_retry names the distinct ValidationError class defined locally
in src/core/error_recovery.py, which the exceptions-module class does
not match, and every other AgenticError is retried). -/
theorem C5_counterexample : should_retry .excValidation 1 ≠ false := by
  decide

/-- C5 (amended): should_retry returns False exactly for the
ValidationError and ConfigurationError classes defined in
src/core/error_recovery.py itself; the identically named classes of
src/core/exceptions.py are AgenticError subclasses not matched by the
isinstance check and are therefore retried; store/database, queue
backend (Redis), connection and timeout errors are retried — all
regardless of the attempt number. -/
theorem C5_should_retry_classification (n : Nat) :
    should_retry .recValidation n = false ∧
    should_retry .recConfiguration n = false ∧
    should_retry .excValidation n = true ∧
    should_retry .excConfiguration n = true ∧
    should_retry .databaseErr n = true ∧
    should_retry .redisErr n = true ∧
    should_retry .connectionErr n = true ∧
    should_retry .timeoutErr n = true :=
  ⟨rfl, rfl, rfl, rfl, rfl, rfl, rfl, rfl⟩

/-- C6: with jitter disabled get_delay attempt equals
min (base_delay * multiplier ^ (attempt - 1)) max_delay — in
particular 1, 2 and 10 (capped) for attempts 1, 2 and 5 with
base_delay 1, multiplier 2, max_delay 10 — and with jitter enabled the
delay is that value scaled by a factor 1/2 + rand/2 which, for
rand = random.random() ∈ [0, 1), lies in the closed interval
[1/2, 1]. -/
theorem C6_get_delay_formula :
    (∀ b m mu r : ℚ, ∀ a : Nat, 1 ≤ a →
      get_delay b m mu false a r = min (b * mu ^ (a - 1)) m) ∧
    get_delay 1 10 2 false 1 0 = 1 ∧
    get_delay 1 10 2 false 2 0 = 2 ∧
    get_delay 1 10 2 false 5 0 = 10 ∧
    (∀ b m mu r : ℚ, ∀ a : Nat, 0 ≤ r → r < 1 →
      ∃ g : ℚ, 1/2 ≤ g ∧ g ≤ 1 ∧
        get_delay b m mu true a r = min (b * mu ^ (a - 1)) m * g) := by
  refine ⟨fun b m mu r a _ => rfl, by norm_num [get_delay],
    by norm_num [get_delay], by norm_num [get_delay],
    fun b m mu r a hr0 hr1 => ⟨1/2 + r * (1/2), by linarith, by linarith, rfl⟩⟩

/-- C6 witness: the jitter-free formula at attempt 2 and the jittered
bound at attempt 3 with rand = 1/3, both at base_delay 1,
multiplier 2, max_delay 10. -/
theorem C6_get_delay_witness :
    get_delay 1 10 2 false 2 (37 : ℚ) = min ((1 : ℚ) * 2 ^ (2 - 1)) 10 ∧
    (∃ g : ℚ, 1/2 ≤ g ∧ g ≤ 1 ∧
      get_delay 1 10 2 true 3 (1/3) = min ((1 : ℚ) * 2 ^ (3 - 1)) 10 * g) :=
  ⟨C6_get_delay_formula.1 1 10 2 37 2 (by norm_num),
   C6_get_delay_formula.2.2.2.2 1 10 2 (1/3) 3 (by norm_num) (by norm_num)⟩

/-! ## src/core/mq.py: MessageQueue.dequeue. -/

/-- Outcome of the conn.brpop call inside MessageQueue.dequeue
(src/core/mq.py lines 132-199), one constructor per branch the source
distinguishes: a message whose payload parses (item), a timeout with
no message (empty, brpop returned None), and the four except-clauses
(redis.ConnectionError, redis.TimeoutError, redis.RedisError, any
other exception — the last also covers an unparseable payload, since
json.loads runs inside the same try). -/
inductive DequeueOutcome where
  | item : List (String × PyVal) → DequeueOutcome
  | empty : DequeueOutcome
  | connFail : DequeueOutcome
  | timeoutFail : DequeueOutcome
  | redisFail : DequeueOutcome
  | unexpectedFail : DequeueOutcome
deriving DecidableEq, Repr

/-- MessageQueue.dequeue (src/core/mq.py lines 119-199). The Option
wraps what the Python function returns: some d for return of a dict d,
none would be a Python return None — which no branch of the source
produces. -/
def MessageQueue.dequeue : DequeueOutcome → Option (List (String × PyVal))
  | .item d => some d
  | .empty => some []
  | .connFail => some []
  | .timeoutFail => some []
  | .redisFail => some []
  | .unexpectedFail => some []

/-! ## src/core/coordinator.py: Coordinator.process_task. -/

/-- Outcome of the redis lpush inside Coordinator.process_task, one
constructor per branch of the source's try/except chain
(src/core/coordinator.py lines 63-188), carrying str(e) for the error
branches. -/
inductive EnqueueOutcome where
  | ok : EnqueueOutcome
  | connFail : String → EnqueueOutcome
  | timeoutFail : String → EnqueueOutcome
  | redisFail : String → EnqueueOutcome
  | unexpectedFail : String → EnqueueOutcome
deriving DecidableEq, Repr

/-- Structured result dictionary of Coordinator.process_task: status
and task_id are always present; message only on success, error only on
failure (processing_time_ms elided, see the file header). -/
structure ProcessResult where
  status : String
  task_id : PyVal
  message : Option String
  error : Option String
deriving DecidableEq, Repr

/-- Coordinator.process_task (src/core/coordinator.py lines 46-188):
task_id is task_spec.get("id", "unknown"); every branch returns a
structured result, none raises. -/
def Coordinator.process_task (task_spec : List (String × PyVal))
    (outcome : EnqueueOutcome) : ProcessResult :=
  let task_id := (pyGet task_spec "id").getD (.vStr "unknown")
  match outcome with
  | .ok =>
      ⟨"enqueued", task_id, some "Task has been enqueued for processing", none⟩
  | .connFail m =>
      ⟨"error", task_id, none, some ("Redis connection error: " ++ m)⟩
  | .timeoutFail m =>
      ⟨"error", task_id, none, some ("Redis timeout error: " ++ m)⟩
  | .redisFail m =>
      ⟨"error", task_id, none, some ("Redis error: " ++ m)⟩
  | .unexpectedFail m =>
      ⟨"error", task_id, none, some ("Unexpected error: " ++ m)⟩

/-! ## Claims C2, C3, C9. -/

/-- C2: for every task specification carrying an "id" field and every
enqueue outcome, process_task returns a structured result (no branch
raises — the function is total over the outcomes of the source's
catch-all try/except chain): on success status "enqueued" with
task_id the spec's id; on any backend failure status "error", the
same task_id, and a non-empty error message. -/
theorem C2_process_task_total (spec : List (String × PyVal))
    (o : EnqueueOutcome) (v : PyVal) (hid : pyGet spec "id" = some v) :
    ((Coordinator.process_task spec o).status = "enqueued" ∨
      (Coordinator.process_task spec o).status = "error") ∧
    (o = .ok →
      (Coordinator.process_task spec o).status = "enqueued" ∧
      (Coordinator.process_task spec o).task_id = v) ∧
    (o ≠ .ok →
      (Coordinator.process_task spec o).status = "error" ∧
      (Coordinator.process_task spec o).task_id = v ∧
      ∃ e, (Coordinator.process_task spec o).error = some e ∧
        0 < e.length) := by
  cases o <;>
    simp [Coordinator.process_task, hid] <;>
    exact Or.inl (by decide)

/-- C2 witness: the unreachable-backend scenario of the spec,
process_task {"id": 1} against a connection error returns status
"error", task_id 1 and a non-empty error message. -/
theorem C2_process_task_witness :
    ((Coordinator.process_task [("id", .vNum 1)] (.connFail "boom")).status =
        "enqueued" ∨
      (Coordinator.process_task [("id", .vNum 1)] (.connFail "boom")).status =
        "error") ∧
    ((.connFail "boom" : EnqueueOutcome) = .ok →
      (Coordinator.process_task [("id", .vNum 1)] (.connFail "boom")).status =
        "enqueued" ∧
      (Coordinator.process_task [("id", .vNum 1)]
        (.connFail "boom")).task_id = .vNum 1) ∧
    ((.connFail "boom" : EnqueueOutcome) ≠ .ok →
      (Coordinator.process_task [("id", .vNum 1)] (.connFail "boom")).status =
        "error" ∧
      (Coordinator.process_task [("id", .vNum 1)]
        (.connFail "boom")).task_id = .vNum 1 ∧
      ∃ e, (Coordinator.process_task [("id", .vNum 1)]
        (.connFail "boom")).error = some e ∧ 0 < e.length) :=
  C2_process_task_total [("id", .vNum 1)] (.connFail "boom") (.vNum 1)
    (by decide)

/-- C3 counterexample: a dequeue call in which no item arrives within
the timeout does not return the distinguished absent value None — the
source returns the empty dict instead. -/
theorem C3_counterexample : MessageQueue.dequeue .empty ≠ none := by
  decide

/-- C3 (amended): for every dequeue call in which no item arrives on
the channel within the timeout, the operation returns the empty
dictionary (a dictionary value, not the distinguished absent value
None). -/
theorem C3_dequeue_timeout_empty_dict :
    MessageQueue.dequeue .empty = some [] := by
  decide

/-- C9: MessageQueue.dequeue never raises and never returns None; on
every backend failure branch (connection error, timeout error, other
redis error, unexpected error) it returns the empty dict, the same
value as when no message arrives before the timeout — so the caller
cannot tell a backend failure from an empty queue from the return
value alone. -/
theorem C9_dequeue_never_raises_empty_on_failure :
    (∀ o : DequeueOutcome, MessageQueue.dequeue o ≠ none) ∧
    MessageQueue.dequeue .connFail = MessageQueue.dequeue .empty ∧
    MessageQueue.dequeue .timeoutFail = MessageQueue.dequeue .empty ∧
    MessageQueue.dequeue .redisFail = MessageQueue.dequeue .empty ∧
    MessageQueue.dequeue .unexpectedFail = MessageQueue.dequeue .empty ∧
    MessageQueue.dequeue .empty = some [] := by
  refine ⟨fun o => ?_, rfl, rfl, rfl, rfl, rfl⟩
  cases o <;> simp [MessageQueue.dequeue]

/-! ## src/agents/browser_agent/main.py and src/core/worker.py. -/

/-- Outcome of self.controller.navigate(url) inside
BrowserAgent.execute_task: it returns True, returns False, or raises
(the raise is caught by the agent's catch-all except). -/
inductive NavOutcome where
  | navOk : NavOutcome
  | navFalse : NavOutcome
  | navRaises : String → NavOutcome
deriving DecidableEq, Repr

/-- Behaviour of the Playwright controller during one
execute_task call: the navigate outcome, and an optional exception
raised by a click/fill call during the action loop (click/fill calls
that merely return False are only logged as warnings and do not affect
the result, as in src/agents/browser_agent/main.py lines 43-48). -/
structure BrowserEnv where
  nav : NavOutcome
  actionExn : Option String
deriving DecidableEq, Repr

/-- BrowserAgent.execute_task (src/agents/browser_agent/main.py lines
13-61): no-URL check, then navigation and the action loop inside a
catch-all try; every branch returns a three-field dict, none raises. -/
def BrowserAgent.execute_task (task_spec : List (String × PyVal))
    (env : BrowserEnv) : List (String × PyVal) :=
  let task_id := (pyGet task_spec "id").getD (.vStr "unknown")
  let url := pyGet task_spec "url"
  if !((url.map PyVal.truthy).getD false) then
    [("status", .vStr "error"), ("task_id", task_id),
     ("error", .vStr "No URL provided in task specification")]
  else
    match env.nav with
    | .navRaises m =>
        [("status", .vStr "error"), ("task_id", task_id),
         ("error", .vStr m)]
    | .navFalse =>
        [("status", .vStr "error"), ("task_id", task_id),
         ("error", .vStr ("Failed to navigate to " ++
            (url.getD .vNone).render))]
    | .navOk =>
        match env.actionExn with
        | some m =>
            [("status", .vStr "error"), ("task_id", task_id),
             ("error", .vStr m)]
        | none =>
            [("status", .vStr "completed"), ("task_id", task_id),
             ("result", .vStr ("Successfully executed browser automation task on "
                ++ (url.getD .vNone).render))]

/-- Outcome of a database UPDATE executed by the worker: it commits or
raises. -/
inductive DbOutcome where
  | ok : DbOutcome
  | raisesExn : String → DbOutcome
deriving DecidableEq, Repr

/-- Environment of one Worker.process_task call: the Playwright
controller's behaviour, the outcome of the primary status UPDATE, and
the outcome of the fallback UPDATE to 'failed' in the except block. -/
structure WorkerEnv where
  browser : BrowserEnv
  dbUpdate : DbOutcome
  dbFailUpdate : DbOutcome
deriving DecidableEq, Repr

/-- Worker.process_task (src/core/worker.py lines 49-83). The result
is the status value ultimately written to the tasks table: some v when
an UPDATE committed v, none when both the primary UPDATE and the
fallback 'failed' UPDATE raised (the source then only logs). The
function is total: the source wraps the body in try/except Exception
and the fallback write in a nested try/except, so no exception escapes
the loop iteration. BrowserAgent.execute_task itself never raises
(its body is a no-URL check plus a catch-all try), so the only
exceptions reaching the worker's except block are the database ones
modelled here. -/
def Worker.process_task (task : List (String × PyVal))
    (env : WorkerEnv) : Option PyVal :=
  let status : PyVal :=
    if ((pyGet task "browser_task").map PyVal.truthy).getD false then
      (pyGet (BrowserAgent.execute_task task env.browser) "status").getD .vNone
    else .vStr "completed"
  match env.dbUpdate with
  | .ok => some status
  | .raisesExn _ =>
      match env.dbFailUpdate with
      | .ok => some (.vStr "failed")
      | .raisesExn _ => none

/-- Helper: the status field of a BrowserAgent result dict is either
"completed" or "error". -/
theorem browser_status_cases (t : List (String × PyVal))
    (env : BrowserEnv) :
    pyGet (BrowserAgent.execute_task t env) "status" =
        some (.vStr "completed") ∨
    pyGet (BrowserAgent.execute_task t env) "status" =
        some (.vStr "error") := by
  by_cases hu : ((Option.map PyVal.truthy (pyGet t "url")).getD false) = true
  · cases hn : env.nav with
    | navOk =>
        cases ha : env.actionExn with
        | none => left; simp [BrowserAgent.execute_task, hu, hn, ha, pyGet]
        | some m => right; simp [BrowserAgent.execute_task, hu, hn, ha, pyGet]
    | navFalse => right; simp [BrowserAgent.execute_task, hu, hn, pyGet]
    | navRaises m => right; simp [BrowserAgent.execute_task, hu, hn, pyGet]
  · right
    simp only [Bool.not_eq_true] at hu
    simp [BrowserAgent.execute_task, hu, pyGet]

/-! ## Claim C4. -/

/-- C4 counterexample: a browser task with no URL and a healthy
database — the agent reports failure with status "error", and the
worker writes that string verbatim: the persisted status is "error",
which is neither "completed" nor "failed". -/
theorem C4_counterexample :
    Worker.process_task [("id", .vNum 1), ("browser_task", .vBool true)]
      ⟨⟨.navOk, none⟩, .ok, .ok⟩ = some (.vStr "error") ∧
    (PyVal.vStr "error" ≠ .vStr "completed") ∧
    (PyVal.vStr "error" ≠ .vStr "failed") := by
  decide

/-- C4 (amended): the worker never lets an exception escape a loop
iteration (process_task is total over every task and environment), and
the status it persists is "completed", "failed", or "error" — a
dispatched agent that reports failure by returning status "error" has
that string written verbatim, not converted to "failed"; "failed" is
written only when the try body raises (here: a database error) and the
fallback write succeeds; no status is written only when the fallback
write also raises. -/
theorem C4_worker_status_writes (task : List (String × PyVal))
    (env : WorkerEnv) :
    (∀ v, Worker.process_task task env = some v →
      v = .vStr "completed" ∨ v = .vStr "failed" ∨ v = .vStr "error") ∧
    (Worker.process_task task env = none →
      env.dbUpdate ≠ .ok ∧ env.dbFailUpdate ≠ .ok) := by
  constructor
  · intro v hv
    unfold Worker.process_task at hv
    cases hdb : env.dbUpdate with
    | raisesExn m =>
        cases hdb2 : env.dbFailUpdate with
        | ok => simp [hdb, hdb2] at hv; simp [hv.symm]
        | raisesExn m' => simp [hdb, hdb2] at hv
    | ok =>
        simp [hdb] at hv
        by_cases hb : ((pyGet task "browser_task").map PyVal.truthy).getD false
        · rw [if_pos hb] at hv
          rcases browser_status_cases task env.browser with hs | hs <;>
            rw [hs] at hv <;> simp at hv <;> simp [hv.symm]
        · rw [if_neg hb] at hv
          simp [hv.symm]
  · intro hn
    unfold Worker.process_task at hn
    cases hdb : env.dbUpdate with
    | ok => simp [hdb] at hn
    | raisesExn m =>
        cases hdb2 : env.dbFailUpdate with
        | ok => simp [hdb, hdb2] at hn
        | raisesExn m' => simp [hdb, hdb2]

/-- C4 witness: applying C4_worker_status_writes to a generic task on
a healthy database, whose written status is "completed". -/
theorem C4_worker_status_witness :
    PyVal.vStr "completed" = .vStr "completed" ∨
    PyVal.vStr "completed" = .vStr "failed" ∨
    PyVal.vStr "completed" = .vStr "error" :=
  (C4_worker_status_writes [("id", .vNum 2)]
    ⟨⟨.navOk, none⟩, .ok, .ok⟩).1 (.vStr "completed") (by decide)

/-! ## src/core/policy.py: PolicyEngine. -/

/-- Generic assoc-list lookup for string-keyed dictionaries of any
value type. -/
def alookup {α : Type} (d : List (String × α)) (k : String) : Option α :=
  match d with
  | [] => none
  | (k', v) :: rest => if k' = k then some v else alookup rest k

/-- Lookup with default, modelling dict.get(key, default) on a
numeric-valued dict such as env_probes. -/
def qGet (d : List (String × ℚ)) (k : String) (dflt : ℚ) : ℚ :=
  (alookup d k).getD dflt

/-- Fields of the routing policy block that the source accesses by
mandatory indexing (src/core/policy.py lines 42-47 and 93). -/
structure RoutingPolicy where
  max_latency_ms : ℚ
  min_success_prior : ℚ
  prefer_cached_when_ping_ms_gt : ℚ
deriving DecidableEq, Repr

/-- Fields of one agent's policy block, accessed by dict.get with the
defaults the source supplies (src/core/policy.py lines 104-111); none
models an absent key. The research block's searxng_url is irrelevant
to decide and elided. -/
structure AgentPolicy where
  default_timeout_s : Option ℚ
  max_retries : Option ℚ
  headed_on_flake_rate_gt : Option ℚ
deriving DecidableEq, Repr

/-- Shape of the loaded policy configuration as used by decide. -/
structure Policies where
  routing : RoutingPolicy
  agents : List (String × AgentPolicy)
deriving DecidableEq, Repr

/-- Hardcoded default policy dictionary of _load_policies
(src/core/policy.py lines 42-66) — the only policy obtainable in this
tree, since no configs/policy.yaml is present; the fallbacks and
learning blocks are not read by decide and are elided. -/
def default_policies : Policies :=
  ⟨⟨12000, 11/20, 120⟩,
   [("browser", ⟨some 15, some 2, some (1/4)⟩),
    ("research", ⟨none, none, none⟩)]⟩

/-- Result dictionary of PolicyEngine.decide: agent, tool, params. -/
structure Decision where
  agent : String
  tool : String
  params : List (String × PyVal)
deriving DecidableEq, Repr

/-- Body of PolicyEngine.decide (src/core/policy.py lines 73-136) as a
function of the loaded policies: fixed agent/tool pair, the
prefer-cached probe (computed and logged but not returned), then the
agent's parameter block with the conditional headed flag.
task_features is accepted and, as in the source, only logged. -/
def PolicyEngine.decideCore (policies : Policies)
    (_task_features : List (String × PyVal))
    (env_probes : List (String × ℚ)) : Decision :=
  let agent := "browser"
  let tool := "playwright"
  let ping_ms := qGet env_probes "ping_ms" 0
  let _prefer_cached :=
    ping_ms > policies.routing.prefer_cached_when_ping_ms_gt
  let params : List (String × PyVal) :=
    match alookup policies.agents agent with
    | some agent_policy =>
        let base :=
          [("timeout", PyVal.vNum (agent_policy.default_timeout_s.getD 15)),
           ("retries", PyVal.vNum (agent_policy.max_retries.getD 2))]
        let flake_rate := qGet env_probes "flake_rate" 0
        if flake_rate > agent_policy.headed_on_flake_rate_gt.getD (1/4) then
          base ++ [("headed", PyVal.vBool true)]
        else base
    | none => []
  ⟨agent, tool, params⟩

/-- Engine state: the loaded policies plus the telemetry-only decision
counter (src/core/policy.py lines 10-16, 76). -/
structure PolicyEngine where
  policies : Policies
  decision_count : Nat
deriving DecidableEq, Repr

/-- PolicyEngine.decide including its only state change: the decision
counter increments; the returned decision is decideCore of the loaded
policies. -/
def PolicyEngine.decide (e : PolicyEngine)
    (task_features : List (String × PyVal))
    (env_probes : List (String × ℚ)) : Decision × PolicyEngine :=
  (PolicyEngine.decideCore e.policies task_features env_probes,
   { e with decision_count := e.decision_count + 1 })

/-! ## Claim C8. -/

/-- C8: decide is deterministic up to the telemetry counter — engines
with the same loaded policy produce equal decisions whatever their
counters — and with the default policy the demo call with ping_ms 50
and flake_rate 0.1 yields agent "browser", tool "playwright", params
timeout 15 and retries 2 with no headed key, while the same call with
flake_rate 0.5 additionally yields headed = true. -/
theorem C8_policy_decide_deterministic :
    (∀ (p : Policies) (c1 c2 : Nat) (tf : List (String × PyVal))
        (ep : List (String × ℚ)),
      (PolicyEngine.decide ⟨p, c1⟩ tf ep).1 =
        (PolicyEngine.decide ⟨p, c2⟩ tf ep).1) ∧
    (PolicyEngine.decideCore default_policies
        [("project", .vStr "demo"), ("urgency", .vNum 5)]
        [("ping_ms", 50), ("flake_rate", 1/10)] =
      ⟨"browser", "playwright",
        [("timeout", .vNum 15), ("retries", .vNum 2)]⟩) ∧
    (pyGet (PolicyEngine.decideCore default_policies
        [("project", .vStr "demo"), ("urgency", .vNum 5)]
        [("ping_ms", 50), ("flake_rate", 1/10)]).params "headed" = none) ∧
    (pyGet (PolicyEngine.decideCore default_policies
        [("project", .vStr "demo"), ("urgency", .vNum 5)]
        [("ping_ms", 50), ("flake_rate", 1/2)]).params "timeout" =
      some (.vNum 15)) ∧
    (pyGet (PolicyEngine.decideCore default_policies
        [("project", .vStr "demo"), ("urgency", .vNum 5)]
        [("ping_ms", 50), ("flake_rate", 1/2)]).params "retries" =
      some (.vNum 2)) ∧
    (pyGet (PolicyEngine.decideCore default_policies
        [("project", .vStr "demo"), ("urgency", .vNum 5)]
        [("ping_ms", 50), ("flake_rate", 1/2)]).params "headed" =
      some (.vBool true)) := by
  refine ⟨fun p c1 c2 tf ep => rfl, ?_, ?_, ?_, ?_, ?_⟩
  all_goals
    simp [PolicyEngine.decideCore, default_policies, qGet, alookup, pyGet]
  all_goals try norm_num
  all_goals try simp [pyGet]

/-! ## src/core/error_rate_limiter.py: ErrorRateLimiter.

Python's int(x) and int(x // 60) truncate toward zero; for the
nonnegative timestamps produced by time.time() this is the floor, so
the bucket keys are ⌊t⌋ and ⌊t / 60⌋. -/

/-- Read of a defaultdict(int) count via dict.get(key, 0). -/
def cGet (m : List (Int × Int)) (k : Int) : Int :=
  match m with
  | [] => 0
  | (k', v) :: rest => if k' = k then v else cGet rest k

/-- counts[key] += 1 on a defaultdict(int): bump an existing entry or
create one at 1. -/
def cInc (m : List (Int × Int)) (k : Int) : List (Int × Int) :=
  match m with
  | [] => [(k, 1)]
  | (k', v) :: rest =>
      if k' = k then (k', v + 1) :: rest else (k', v) :: cInc rest k

/-- counts[key] -= 1 followed by del counts[key] when the result is
≤ 0 (src/core/error_rate_limiter.py lines 65-71). On a missing key the
defaultdict would create 0, decrement to -1 and delete it again — a
net no-op, as here. -/
def cDecDel (m : List (Int × Int)) (k : Int) : List (Int × Int) :=
  match m with
  | [] => []
  | (k', v) :: rest =>
      if k' = k then (if v - 1 ≤ 0 then rest else (k', v - 1) :: rest)
      else (k', v) :: cDecDel rest k

/-- Result of the eviction loop: the surviving deque of timestamps and
the two decremented bucket maps. -/
structure EvState where
  ts : List ℚ
  secs : List (Int × Int)
  mins : List (Int × Int)
deriving DecidableEq, Repr

/-- Eviction while-loop of is_allowed (src/core/error_rate_limiter.py
lines 59-71): pop timestamps older than the window from the front of
the deque, decrementing their second and minute buckets. -/
def evict (now window : ℚ) : List ℚ → List (Int × Int) →
    List (Int × Int) → EvState
  | [], secs, mins => ⟨[], secs, mins⟩
  | t :: ts, secs, mins =>
      if now - t > window then
        evict now window ts (cDecDel secs ⌊t⌋) (cDecDel mins ⌊t / 60⌋)
      else ⟨t :: ts, secs, mins⟩

/-- State of an ErrorRateLimiter (src/core/error_rate_limiter.py lines
15-41): the ceilings, the window, the timestamp deque (front = oldest)
and the per-second / per-minute bucket counts. -/
structure ErrorRateLimiter where
  max_errors_per_second : Nat
  max_errors_per_minute : Nat
  window_size_seconds : ℚ
  error_timestamps : List ℚ
  error_counts_per_second : List (Int × Int)
  error_counts_per_minute : List (Int × Int)
deriving DecidableEq, Repr

/-- ErrorRateLimiter.__init__: empty window. -/
def ErrorRateLimiter.mk0 (mps mpm : Nat) (window : ℚ) :
    ErrorRateLimiter :=
  ⟨mps, mpm, window, [], [], []⟩

/-- ErrorRateLimiter.is_allowed (src/core/error_rate_limiter.py lines
43-87) at wall-clock time now: evict old buckets, check the per-second
then the per-minute ceiling, and only if under both record the event
and return True. The error_type argument of the source is only
interpolated into debug logs and is elided. -/
def ErrorRateLimiter.is_allowed (l : ErrorRateLimiter) (now : ℚ) :
    Bool × ErrorRateLimiter :=
  let current_second : Int := ⌊now⌋
  let current_minute : Int := ⌊now / 60⌋
  let ev := evict now l.window_size_seconds l.error_timestamps
    l.error_counts_per_second l.error_counts_per_minute
  if (l.max_errors_per_second : Int) ≤ cGet ev.secs current_second then
    (false, { l with error_timestamps := ev.ts,
                     error_counts_per_second := ev.secs,
                     error_counts_per_minute := ev.mins })
  else if (l.max_errors_per_minute : Int) ≤ cGet ev.mins current_minute then
    (false, { l with error_timestamps := ev.ts,
                     error_counts_per_second := ev.secs,
                     error_counts_per_minute := ev.mins })
  else
    (true, { l with error_timestamps := ev.ts ++ [now],
                    error_counts_per_second := cInc ev.secs current_second,
                    error_counts_per_minute := cInc ev.mins current_minute })

/-- State change of is_allowed restricted to eviction: what the
limiter looks like when a call is denied. -/
def ErrorRateLimiter.evictOnly (l : ErrorRateLimiter) (now : ℚ) :
    ErrorRateLimiter :=
  let ev := evict now l.window_size_seconds l.error_timestamps
    l.error_counts_per_second l.error_counts_per_minute
  { l with error_timestamps := ev.ts,
           error_counts_per_second := ev.secs,
           error_counts_per_minute := ev.mins }

/-- Successive is_allowed calls at the given times, returning the list
of results. -/
def runCalls (l : ErrorRateLimiter) : List ℚ → List Bool
  | [] => []
  | t :: rest =>
      let r := l.is_allowed t
      r.1 :: runCalls r.2 rest

/-- Helper: eviction leaves a suffix of the original deque. -/
theorem evict_ts_suffix (now window : ℚ) (ts : List ℚ)
    (secs mins : List (Int × Int)) :
    (evict now window ts secs mins).ts <:+ ts := by
  induction ts generalizing secs mins with
  | nil => simp [evict]
  | cons t rest ih =>
      unfold evict
      by_cases h : now - t > window
      · rw [if_pos h]
        exact (ih _ _).trans (List.suffix_cons t rest)
      · rw [if_neg h]

/-- Helper: when no timestamp in the deque is older than the window,
eviction is the identity. -/
theorem evict_no_old (now window : ℚ) (ts : List ℚ)
    (secs mins : List (Int × Int))
    (h : ∀ t ∈ ts, ¬ now - t > window) :
    evict now window ts secs mins = ⟨ts, secs, mins⟩ := by
  cases ts with
  | nil => simp [evict]
  | cons t rest =>
      unfold evict
      rw [if_neg (h t (by simp))]

/-- Helper: a granted is_allowed call appends the timestamp and bumps
both buckets. -/
theorem is_allowed_grant (l : ErrorRateLimiter) (now : ℚ)
    (hev : ∀ t ∈ l.error_timestamps, ¬ now - t > l.window_size_seconds)
    (hsec : cGet l.error_counts_per_second ⌊now⌋ <
      (l.max_errors_per_second : Int))
    (hmin : cGet l.error_counts_per_minute ⌊now / 60⌋ <
      (l.max_errors_per_minute : Int)) :
    l.is_allowed now = (true,
      { l with
        error_timestamps := l.error_timestamps ++ [now],
        error_counts_per_second := cInc l.error_counts_per_second ⌊now⌋,
        error_counts_per_minute :=
          cInc l.error_counts_per_minute ⌊now / 60⌋ }) := by
  unfold ErrorRateLimiter.is_allowed
  rw [evict_no_old _ _ _ _ _ hev]
  rw [if_neg (not_le.mpr hsec), if_neg (not_le.mpr hmin)]

/-- Helper: an is_allowed call denied by the per-second ceiling leaves
the (unevicted) state unchanged. -/
theorem is_allowed_deny_sec (l : ErrorRateLimiter) (now : ℚ)
    (hev : ∀ t ∈ l.error_timestamps, ¬ now - t > l.window_size_seconds)
    (hsec : (l.max_errors_per_second : Int) ≤
      cGet l.error_counts_per_second ⌊now⌋) :
    l.is_allowed now = (false, l) := by
  unfold ErrorRateLimiter.is_allowed
  rw [evict_no_old _ _ _ _ _ hev]
  rw [if_pos hsec]

/-- Helper: the minute bucket of a rational is the integer division of
its second bucket by 60. -/
theorem floor_div_sixty (t : ℚ) : ⌊t / 60⌋ = ⌊t⌋ / 60 := by
  have h1 : ((⌊t⌋ : ℤ) : ℚ) ≤ t := Int.floor_le t
  have h2 : t < (⌊t⌋ : ℤ) + 1 := Int.lt_floor_add_one t
  have hmod : 60 * (⌊t⌋ / 60) + ⌊t⌋ % 60 = ⌊t⌋ := Int.ediv_add_emod ⌊t⌋ 60
  have hm0 : 0 ≤ ⌊t⌋ % 60 := Int.emod_nonneg ⌊t⌋ (by norm_num)
  have hm1 : ⌊t⌋ % 60 < 60 := Int.emod_lt_of_pos ⌊t⌋ (by norm_num)
  have hmodq : (60 : ℚ) * ((⌊t⌋ / 60 : ℤ) : ℚ) + ((⌊t⌋ % 60 : ℤ) : ℚ) =
      ((⌊t⌋ : ℤ) : ℚ) := by exact_mod_cast hmod
  have hm0q : (0 : ℚ) ≤ ((⌊t⌋ % 60 : ℤ) : ℚ) := by exact_mod_cast hm0
  have hm1q : ((⌊t⌋ % 60 : ℤ) : ℚ) < 60 := by exact_mod_cast hm1
  rw [Int.floor_eq_iff]
  constructor
  · rw [le_div_iff₀ (by norm_num : (0 : ℚ) < 60)]
    linarith
  · rw [div_lt_iff₀ (by norm_num : (0 : ℚ) < 60)]
    have hm59 : ⌊t⌋ % 60 ≤ 59 := by omega
    have hm59q : ((⌊t⌋ % 60 : ℤ) : ℚ) ≤ 59 := by exact_mod_cast hm59
    push_cast at hmodq hm59q
    linarith

/-! ## Claims C7 and C10. -/

/-- C7: for a limiter with max_errors_per_second = 5, any per-minute
ceiling of at least 6 and the default 60-second window, six successive
is_allowed calls whose times all fall in the same whole-second bucket
s return exactly [true, true, true, true, true, false]. -/
theorem C7_rate_limiter_six_calls (mpm : Nat) (t1 t2 t3 t4 t5 t6 : ℚ)
    (s : Int)
    (h1 : ⌊t1⌋ = s) (h2 : ⌊t2⌋ = s) (h3 : ⌊t3⌋ = s) (h4 : ⌊t4⌋ = s)
    (h5 : ⌊t5⌋ = s) (h6 : ⌊t6⌋ = s) (hmpm : 6 ≤ mpm) :
    runCalls (ErrorRateLimiter.mk0 5 mpm 60) [t1, t2, t3, t4, t5, t6] =
      [true, true, true, true, true, false] := by
  have hmpmZ : (6 : Int) ≤ (mpm : Int) := by exact_mod_cast hmpm
  have m1 : ⌊t1 / 60⌋ = s / 60 := by rw [floor_div_sixty, h1]
  have m2 : ⌊t2 / 60⌋ = s / 60 := by rw [floor_div_sixty, h2]
  have m3 : ⌊t3 / 60⌋ = s / 60 := by rw [floor_div_sixty, h3]
  have m4 : ⌊t4 / 60⌋ = s / 60 := by rw [floor_div_sixty, h4]
  have m5 : ⌊t5 / 60⌋ = s / 60 := by rw [floor_div_sixty, h5]
  have m6 : ⌊t6 / 60⌋ = s / 60 := by rw [floor_div_sixty, h6]
  have hdiff : ∀ a b : ℚ, ⌊a⌋ = s → ⌊b⌋ = s → ¬ a - b > 60 := by
    intro a b ha hb hgt
    have hb' : ((s : ℤ) : ℚ) ≤ b := hb ▸ Int.floor_le b
    have ha' : a < ((s : ℤ) : ℚ) + 1 := by
      rw [← ha]; exact Int.lt_floor_add_one a
    linarith
  have e1 := is_allowed_grant (ErrorRateLimiter.mk0 5 mpm 60) t1
    (by intro t ht; simp [ErrorRateLimiter.mk0] at ht)
    (by simp [ErrorRateLimiter.mk0, cGet])
    (by simp [ErrorRateLimiter.mk0, cGet]; omega)
  simp only [ErrorRateLimiter.mk0, h1, m1] at e1
  simp [cInc] at e1
  have e2 := is_allowed_grant ⟨5, mpm, 60, [t1], [(s, 1)], [(s / 60, 1)]⟩ t2
    (by intro t ht; simp at ht; rw [ht]; exact hdiff t2 t1 h2 h1)
    (by rw [h2]; simp [cGet])
    (by rw [m2]; simp [cGet]; omega)
  simp only [h2, m2] at e2
  simp [cInc] at e2
  have e3 := is_allowed_grant ⟨5, mpm, 60, [t1, t2], [(s, 2)], [(s / 60, 2)]⟩ t3
    (by intro t ht; simp at ht
        rcases ht with ht | ht <;> rw [ht]
        · exact hdiff t3 t1 h3 h1
        · exact hdiff t3 t2 h3 h2)
    (by rw [h3]; simp [cGet])
    (by rw [m3]; simp [cGet]; omega)
  simp only [h3, m3] at e3
  simp [cInc] at e3
  have e4 := is_allowed_grant
    ⟨5, mpm, 60, [t1, t2, t3], [(s, 3)], [(s / 60, 3)]⟩ t4
    (by intro t ht; simp at ht
        rcases ht with ht | ht | ht <;> rw [ht]
        · exact hdiff t4 t1 h4 h1
        · exact hdiff t4 t2 h4 h2
        · exact hdiff t4 t3 h4 h3)
    (by rw [h4]; simp [cGet])
    (by rw [m4]; simp [cGet]; omega)
  simp only [h4, m4] at e4
  simp [cInc] at e4
  have e5 := is_allowed_grant
    ⟨5, mpm, 60, [t1, t2, t3, t4], [(s, 4)], [(s / 60, 4)]⟩ t5
    (by intro t ht; simp at ht
        rcases ht with ht | ht | ht | ht <;> rw [ht]
        · exact hdiff t5 t1 h5 h1
        · exact hdiff t5 t2 h5 h2
        · exact hdiff t5 t3 h5 h3
        · exact hdiff t5 t4 h5 h4)
    (by rw [h5]; simp [cGet])
    (by rw [m5]; simp [cGet]; omega)
  simp only [h5, m5] at e5
  simp [cInc] at e5
  have e6 := is_allowed_deny_sec
    ⟨5, mpm, 60, [t1, t2, t3, t4, t5], [(s, 5)], [(s / 60, 5)]⟩ t6
    (by intro t ht; simp at ht
        rcases ht with ht | ht | ht | ht | ht <;> rw [ht]
        · exact hdiff t6 t1 h6 h1
        · exact hdiff t6 t2 h6 h2
        · exact hdiff t6 t3 h6 h3
        · exact hdiff t6 t4 h6 h4
        · exact hdiff t6 t5 h6 h5)
    (by rw [h6]; simp [cGet])
  simp only [runCalls, ErrorRateLimiter.mk0]
  simp [e1, e2, e3, e4, e5, e6]

/-- C7 witness: six calls at time 0 (all in second bucket 0) against a
fresh limiter with ceilings 5 per second and 100 per minute. -/
theorem C7_rate_limiter_six_calls_witness :
    runCalls (ErrorRateLimiter.mk0 5 100 60) [0, 0, 0, 0, 0, 0] =
      [true, true, true, true, true, false] :=
  C7_rate_limiter_six_calls 100 0 0 0 0 0 0 0 (by simp) (by simp)
    (by simp) (by simp) (by simp) (by simp) (by norm_num)

/-- C10: a denied is_allowed call consumes no budget — when the result
is False, the resulting state is exactly the evicted state (no
timestamp appended, neither bucket incremented), and the surviving
timestamp deque is a suffix of the original one (eviction only
removes). -/
theorem C10_denied_call_only_evicts (l : ErrorRateLimiter) (now : ℚ)
    (hfalse : (l.is_allowed now).1 = false) :
    (l.is_allowed now).2 = l.evictOnly now ∧
    (l.is_allowed now).2.error_timestamps <:+ l.error_timestamps := by
  have hsuf := evict_ts_suffix now l.window_size_seconds l.error_timestamps
    l.error_counts_per_second l.error_counts_per_minute
  unfold ErrorRateLimiter.is_allowed at hfalse ⊢
  unfold ErrorRateLimiter.evictOnly
  dsimp only at hfalse ⊢
  split_ifs at hfalse ⊢ <;> simp_all

/-- C10 witness: a limiter whose per-second ceiling is 0 denies the
call at time 0, and the resulting state is the evicted state. -/
theorem C10_denied_call_only_evicts_witness :
    ((ErrorRateLimiter.mk0 0 0 60).is_allowed 0).2 =
      (ErrorRateLimiter.mk0 0 0 60).evictOnly 0 ∧
    ((ErrorRateLimiter.mk0 0 0 60).is_allowed 0).2.error_timestamps <:+
      (ErrorRateLimiter.mk0 0 0 60).error_timestamps :=
  C10_denied_call_only_evicts _ 0
    (by simp [ErrorRateLimiter.is_allowed, ErrorRateLimiter.mk0, evict, cGet])
